import Mathlib

/-!
Verification of the bluen entity-synchronization core (`src/lib/adapter.ts`,
`src/lib/bluez.ts`, and the battery module) against its specification.

The embedding is shallow: each TypeScript class becomes a Lean structure of
its private fields, each method a pure Lean function.  DBus variant values
are modelled by `DBusValue`; the `{ value: T }` wrappers returned by the bus
become `VariantVal`; a property bag (a JS object keyed by property name)
becomes an association list.  The asynchronous pieces (the detached
`setProperty` call, the `Adapter.fromPath(...).then(...)` resolution) are
modelled by explicit pending-action values and explicit completion steps, as
the single-threaded event loop runs them.
-/

/-- A value carried inside a DBus variant.  The handlers under verification
never inspect the payload (TypeScript `as` casts are compile-time only), so
one constructor per wire shape used by the library suffices. -/
inductive DBusValue where
  | str : String → DBusValue
  | int : Int → DBusValue
  | bool : Bool → DBusValue
  | strList : List String → DBusValue
  | dict : List (String × Int) → DBusValue
deriving DecidableEq

/-- The `{ value: unknown }` wrapper in which the bus delivers every
property value (dbus-next `Variant`). -/
structure VariantVal where
  value : DBusValue
deriving DecidableEq

/-- A property bag: mapping from property name to wrapped value, as
delivered by `GetManagedObjects` and by `PropertiesChanged`. -/
abbrev Bag := List (String × VariantVal)

section EntityNotification

variable {σ φ : Type}

/-- One iteration of the `for (const [prop, { value }] of Object.entries(...))`
loop body, restricted to its effect on the entity's fields: look the property
name up in the entity's static property→field table; on a hit perform the
corresponding field assignment, on a miss (the `default:` arm) leave the
state alone. -/
def applyEntry (wr : φ → DBusValue → σ → σ) (tbl : List (String × φ))
    (s : σ) (p : String × VariantVal) : σ :=
  match tbl.lookup p.1 with
  | some f => wr f p.2.value s
  | none => s

/-- Folding the loop body over the whole notification (field effect only). -/
def applyEntries (wr : φ → DBusValue → σ → σ) (tbl : List (String × φ))
    (s : σ) (ps : List (String × VariantVal)) : σ :=
  ps.foldl (applyEntry wr tbl) s

/-- One iteration of the Adapter/Device loop body, with its full effect:
a recognized property assigns the field and then reaches the
`this.emit('change')` at the bottom of the loop (so the emit counter rises by
one per recognized property); the `default:` arm logs a warning and
`continue`s past the emit.  Accumulator: (fields, emitted-change-count,
warnings). -/
def stepEmit (wr : φ → DBusValue → σ → σ) (tbl : List (String × φ))
    (warnPrefix : String) (acc : σ × Nat × List String)
    (p : String × VariantVal) : σ × Nat × List String :=
  match tbl.lookup p.1 with
  | some f => (wr f p.2.value acc.1, acc.2.1 + 1, acc.2.2)
  | none => (acc.1, acc.2.1, acc.2.2 ++ [warnPrefix ++ p.1])

/-- One iteration of the Battery loop body: same shape, but the Battery
handler has no emit inside the loop (it emits once after it), so the
accumulator is only (fields, warnings). -/
def stepNoEmit (wr : φ → DBusValue → σ → σ) (tbl : List (String × φ))
    (warnPrefix : String) (acc : σ × List String)
    (p : String × VariantVal) : σ × List String :=
  match tbl.lookup p.1 with
  | some f => (wr f p.2.value acc.1, acc.2)
  | none => (acc.1, acc.2 ++ [warnPrefix ++ p.1])

/-- Number of properties of a notification found in the property→field
table. -/
def countRecognized (tbl : List (String × φ)) (ps : List (String × VariantVal)) : Nat :=
  (ps.filter (fun p => (tbl.lookup p.1).isSome)).length

/-- The diagnostics produced for the properties of a notification missing
from the property→field table, in notification order. -/
def unrecognizedWarnings (tbl : List (String × φ)) (warnPrefix : String)
    (ps : List (String × VariantVal)) : List String :=
  (ps.filter (fun p => (tbl.lookup p.1).isNone)).map (fun p => warnPrefix ++ p.1)

/-- Field-wise union of two notifications in which the second one's values
take precedence for overlapping property names. -/
def unionNotif (n1 n2 : List (String × VariantVal)) : List (String × VariantVal) :=
  n1.filter (fun p => !(n2.any (fun q => q.1 == p.1))) ++ n2

end EntityNotification

section EntityNotificationLemmas

variable {σ φ : Type} (wr : φ → DBusValue → σ → σ) (tbl : List (String × φ))
variable (warnPrefix : String)

theorem applyEntry_recognized {p : String × VariantVal} {f : φ}
    (h : tbl.lookup p.1 = some f) (s : σ) :
    applyEntry wr tbl s p = wr f p.2.value s := by
  simp [applyEntry, h]

theorem applyEntry_unrecognized {p : String × VariantVal}
    (h : tbl.lookup p.1 = none) (s : σ) :
    applyEntry wr tbl s p = s := by
  simp [applyEntry, h]

theorem applyEntries_nil (s : σ) : applyEntries wr tbl s [] = s := rfl

theorem applyEntries_cons (s : σ) (p : String × VariantVal)
    (ps : List (String × VariantVal)) :
    applyEntries wr tbl s (p :: ps) = applyEntries wr tbl (applyEntry wr tbl s p) ps := rfl

theorem applyEntries_append (s : σ) (a b : List (String × VariantVal)) :
    applyEntries wr tbl s (a ++ b) = applyEntries wr tbl (applyEntries wr tbl s a) b := by
  simp [applyEntries, List.foldl_append]

/-- The field component of the full Adapter/Device loop is `applyEntries`. -/
theorem foldl_stepEmit_fst (ps : List (String × VariantVal)) :
    ∀ (s : σ) (e : Nat) (ws : List String),
      (ps.foldl (stepEmit wr tbl warnPrefix) (s, e, ws)).1 = applyEntries wr tbl s ps := by
  induction ps with
  | nil => intro s e ws; rfl
  | cons p ps ih =>
    intro s e ws
    rw [List.foldl_cons, applyEntries_cons]
    cases h : tbl.lookup p.1 with
    | none => simp only [stepEmit, h, applyEntry]; exact ih _ _ _
    | some f => simp only [stepEmit, h, applyEntry]; exact ih _ _ _

/-- The Adapter/Device loop emits one `change` event per recognized
property. -/
theorem foldl_stepEmit_count (ps : List (String × VariantVal)) :
    ∀ (s : σ) (e : Nat) (ws : List String),
      (ps.foldl (stepEmit wr tbl warnPrefix) (s, e, ws)).2.1 = e + countRecognized tbl ps := by
  induction ps with
  | nil => intro s e ws; simp [countRecognized]
  | cons p ps ih =>
    intro s e ws
    rw [List.foldl_cons]
    cases h : tbl.lookup p.1 with
    | none =>
      simp only [stepEmit, h]
      rw [ih]
      simp [countRecognized, List.filter_cons, h]
    | some f =>
      simp only [stepEmit, h]
      rw [ih]
      simp [countRecognized, List.filter_cons, h, Nat.add_assoc, Nat.add_comm 1]

/-- The Adapter/Device loop logs exactly the unrecognized property names. -/
theorem foldl_stepEmit_warn (ps : List (String × VariantVal)) :
    ∀ (s : σ) (e : Nat) (ws : List String),
      (ps.foldl (stepEmit wr tbl warnPrefix) (s, e, ws)).2.2
        = ws ++ unrecognizedWarnings tbl warnPrefix ps := by
  induction ps with
  | nil => intro s e ws; simp [unrecognizedWarnings]
  | cons p ps ih =>
    intro s e ws
    rw [List.foldl_cons]
    cases h : tbl.lookup p.1 with
    | none =>
      simp only [stepEmit, h]
      rw [ih]
      simp [unrecognizedWarnings, List.filter_cons, h]
    | some f =>
      simp only [stepEmit, h]
      rw [ih]
      simp [unrecognizedWarnings, List.filter_cons, h]

/-- The field component of the Battery loop is `applyEntries`. -/
theorem foldl_stepNoEmit_fst (ps : List (String × VariantVal)) :
    ∀ (s : σ) (ws : List String),
      (ps.foldl (stepNoEmit wr tbl warnPrefix) (s, ws)).1 = applyEntries wr tbl s ps := by
  induction ps with
  | nil => intro s ws; rfl
  | cons p ps ih =>
    intro s ws
    rw [List.foldl_cons, applyEntries_cons]
    cases h : tbl.lookup p.1 with
    | none => simp only [stepNoEmit, h, applyEntry]; exact ih _ _
    | some f => simp only [stepNoEmit, h, applyEntry]; exact ih _ _

/-- The Battery loop logs exactly the unrecognized property names. -/
theorem foldl_stepNoEmit_warn (ps : List (String × VariantVal)) :
    ∀ (s : σ) (ws : List String),
      (ps.foldl (stepNoEmit wr tbl warnPrefix) (s, ws)).2
        = ws ++ unrecognizedWarnings tbl warnPrefix ps := by
  induction ps with
  | nil => intro s ws; simp [unrecognizedWarnings]
  | cons p ps ih =>
    intro s ws
    rw [List.foldl_cons]
    cases h : tbl.lookup p.1 with
    | none =>
      simp only [stepNoEmit, h]
      rw [ih]
      simp [unrecognizedWarnings, List.filter_cons, h]
    | some f =>
      simp only [stepNoEmit, h]
      rw [ih]
      simp [unrecognizedWarnings, List.filter_cons, h]

/-- Unrecognized entries have no field effect: the field state after a
notification equals the field state after its recognized entries alone. -/
theorem applyEntries_filter_recognized (ps : List (String × VariantVal)) :
    ∀ s : σ, applyEntries wr tbl s (ps.filter (fun p => (tbl.lookup p.1).isSome))
      = applyEntries wr tbl s ps := by
  induction ps with
  | nil => intro s; rfl
  | cons p ps ih =>
    intro s
    cases h : tbl.lookup p.1 with
    | none =>
      rw [applyEntries_cons, applyEntry_unrecognized wr tbl h]
      simpa [List.filter_cons, h] using ih s
    | some f =>
      rw [applyEntries_cons]
      simpa [List.filter_cons, h] using ih (applyEntry wr tbl s p)

end EntityNotificationLemmas

section UnionLemmas

variable {σ φ : Type} (wr : φ → DBusValue → σ → σ) (tbl : List (String × φ))

theorem lookup_mem_values {k : String} {f : φ} :
    tbl.lookup k = some f → f ∈ tbl.map (fun e => e.2) := by
  induction tbl with
  | nil => intro h; cases h
  | cons a t ih =>
    intro h
    rw [List.lookup] at h
    by_cases hk : k = a.1
    · simp [hk] at h
      simp [h]
    · have : (k == a.1) = false := beq_false_of_ne hk
      rw [this] at h
      simp [ih h]

/-- A property→field table whose field column has no duplicates describes an
injective mapping from recognized property names to fields. -/
theorem lookup_inj (hnd : (tbl.map (fun e => e.2)).Nodup)
    {k k' : String} {f : φ} :
    tbl.lookup k = some f → tbl.lookup k' = some f → k = k' := by
  induction tbl with
  | nil => intro h; cases h
  | cons a t ih =>
    intro h h'
    rw [List.lookup] at h h'
    rw [List.map_cons, List.nodup_cons] at hnd
    by_cases hk : k = a.1 <;> by_cases hk' : k' = a.1
    · rw [hk, hk']
    · rw [beq_false_of_ne hk'] at h'
      simp [hk] at h
      exact absurd (h ▸ lookup_mem_values t h') hnd.1
    · rw [beq_false_of_ne hk] at h
      simp [hk'] at h'
      exact absurd (h' ▸ lookup_mem_values t h) hnd.1
    · rw [beq_false_of_ne hk] at h
      rw [beq_false_of_ne hk'] at h'
      exact ih hnd.2 h h'

/-- A pending write to a field none of the remaining entries touch can be
postponed past them. -/
theorem applyEntries_write_absent
    (hw2 : ∀ (f g : φ), f ≠ g → ∀ (v w : DBusValue) (s : σ),
      wr f v (wr g w s) = wr g w (wr f v s))
    (ps : List (String × VariantVal)) :
    ∀ (f : φ) (v : DBusValue) (s : σ),
      (∀ p ∈ ps, tbl.lookup p.1 ≠ some f) →
      applyEntries wr tbl (wr f v s) ps = wr f v (applyEntries wr tbl s ps) := by
  induction ps with
  | nil => intro f v s _; rfl
  | cons p ps ih =>
    intro f v s habs
    rw [applyEntries_cons, applyEntries_cons]
    cases h : tbl.lookup p.1 with
    | none =>
      rw [applyEntry_unrecognized wr tbl h, applyEntry_unrecognized wr tbl h]
      exact ih f v s (fun q hq => habs q (List.mem_cons_of_mem p hq))
    | some g =>
      have hgf : g ≠ f := by
        intro he
        exact habs p (List.mem_cons_self p ps) (he ▸ h)
      rw [applyEntry_recognized wr tbl h, applyEntry_recognized wr tbl h,
        hw2 g f hgf p.2.value v s]
      exact ih f v (wr g p.2.value s) (fun q hq => habs q (List.mem_cons_of_mem p hq))

/-- A write to a field some later entry of the notification also writes is
irrelevant to the final field state. -/
theorem applyEntries_write_overwritten
    (hw1 : ∀ (f : φ) (v v' : DBusValue) (s : σ), wr f v' (wr f v s) = wr f v' s)
    (hw2 : ∀ (f g : φ), f ≠ g → ∀ (v w : DBusValue) (s : σ),
      wr f v (wr g w s) = wr g w (wr f v s))
    (ps : List (String × VariantVal)) :
    ∀ (f : φ) (v : DBusValue) (s : σ),
      (∃ p ∈ ps, tbl.lookup p.1 = some f) →
      applyEntries wr tbl (wr f v s) ps = applyEntries wr tbl s ps := by
  induction ps with
  | nil => intro f v s h; obtain ⟨p, hp, _⟩ := h; cases hp
  | cons p ps ih =>
    intro f v s hex
    rw [applyEntries_cons, applyEntries_cons]
    cases h : tbl.lookup p.1 with
    | none =>
      rw [applyEntry_unrecognized wr tbl h, applyEntry_unrecognized wr tbl h]
      obtain ⟨q, hq, hqf⟩ := hex
      rcases List.mem_cons.mp hq with he | hq'
      · rw [he] at hqf; rw [hqf] at h; cases h
      · exact ih f v s ⟨q, hq', hqf⟩
    | some g =>
      rw [applyEntry_recognized wr tbl h, applyEntry_recognized wr tbl h]
      by_cases hgf : g = f
      · rw [hgf, hw1]
      · rw [hw2 g f hgf p.2.value v s]
        obtain ⟨q, hq, hqf⟩ := hex
        rcases List.mem_cons.mp hq with he | hq'
        · rw [he] at hqf; rw [hqf] at h; injection h with h; exact absurd h.symm hgf
        · exact ih f v (wr g p.2.value s) ⟨q, hq', hqf⟩

/-- Entries of the first notification whose property name recurs in the
second notification are irrelevant to the final field state. -/
theorem applyEntries_drop_overridden
    (hw1 : ∀ (f : φ) (v v' : DBusValue) (s : σ), wr f v' (wr f v s) = wr f v' s)
    (hw2 : ∀ (f g : φ), f ≠ g → ∀ (v w : DBusValue) (s : σ),
      wr f v (wr g w s) = wr g w (wr f v s))
    (hnd : (tbl.map (fun e => e.2)).Nodup)
    (n1 : List (String × VariantVal)) :
    ∀ (n2 : List (String × VariantVal)) (s : σ),
      applyEntries wr tbl (applyEntries wr tbl s n1) n2
        = applyEntries wr tbl
            (applyEntries wr tbl s (n1.filter (fun p => !(n2.any (fun q => q.1 == p.1))))) n2 := by
  induction n1 with
  | nil => intro n2 s; rfl
  | cons p t1 ih =>
    intro n2 s
    cases hb : n2.any (fun q => q.1 == p.1) with
    | false =>
      rw [applyEntries_cons]
      rw [ih n2 (applyEntry wr tbl s p)]
      have : (p :: t1).filter (fun p => !(n2.any (fun q => q.1 == p.1)))
          = p :: t1.filter (fun p => !(n2.any (fun q => q.1 == p.1))) := by
        simp [List.filter_cons, hb]
      rw [this, applyEntries_cons]
    | true =>
      rw [applyEntries_cons]
      rw [ih n2 (applyEntry wr tbl s p)]
      have hfil : (p :: t1).filter (fun p => !(n2.any (fun q => q.1 == p.1)))
          = t1.filter (fun p => !(n2.any (fun q => q.1 == p.1))) := by
        simp [List.filter_cons, hb]
      rw [hfil]
      cases h : tbl.lookup p.1 with
      | none => rw [applyEntry_unrecognized wr tbl h]
      | some f =>
        rw [applyEntry_recognized wr tbl h]
        have habs : ∀ q ∈ t1.filter (fun p => !(n2.any (fun r => r.1 == p.1))),
            tbl.lookup q.1 ≠ some f := by
          intro q hq hqf
          have hq2 := List.of_mem_filter hq
          have : q.1 = p.1 := lookup_inj tbl hnd hqf h
          rw [Bool.not_eq_eq_eq_not, Bool.not_true, List.any_eq_false] at hq2
          obtain ⟨r, hr, hrk⟩ := List.any_eq_true.mp hb
          exact absurd (by rw [this]; exact hrk) (hq2 r hr)
        rw [applyEntries_write_absent wr tbl hw2 _ f p.2.value s habs]
        obtain ⟨r, hr, hrk⟩ := List.any_eq_true.mp hb
        have : tbl.lookup r.1 = some f := by rw [eq_of_beq hrk]; exact h
        exact applyEntries_write_overwritten wr tbl hw1 hw2 n2 f p.2.value _ ⟨r, hr, this⟩

/-- Last-write-wins: applying two notifications in sequence has the same
field effect as applying their field-wise union in which the second
notification's values take precedence. -/
theorem applyEntries_union
    (hw1 : ∀ (f : φ) (v v' : DBusValue) (s : σ), wr f v' (wr f v s) = wr f v' s)
    (hw2 : ∀ (f g : φ), f ≠ g → ∀ (v w : DBusValue) (s : σ),
      wr f v (wr g w s) = wr g w (wr f v s))
    (hnd : (tbl.map (fun e => e.2)).Nodup)
    (n1 n2 : List (String × VariantVal)) (s : σ) :
    applyEntries wr tbl (applyEntries wr tbl s n1) n2
      = applyEntries wr tbl s (unionNotif n1 n2) := by
  rw [unionNotif, applyEntries_append]
  exact applyEntries_drop_overridden wr tbl hw1 hw2 hnd n1 n2 s

end UnionLemmas

/-! ## Adapter (`src/lib/adapter.ts`) -/

/-- The fixed interface identity of an Adapter (`'org.bluez.Adapter1'`). -/
def adapterInterface : String := "org.bluez.Adapter1"

/-- The private fields of the `Adapter` class.  `cls` embeds the source field
`_class` and `aliasName` the source field `_alias` (`class` and `alias` are
reserved in Lean); `modalias` is the one optional field (TypeScript type
`string | null`), modelled by `Option`. -/
structure AdapterState where
  path : String
  address : DBusValue
  name : DBusValue
  aliasName : DBusValue
  cls : DBusValue
  powered : DBusValue
  discoverable : DBusValue
  pairable : DBusValue
  pairableTimeout : DBusValue
  discoverableTimeout : DBusValue
  discovering : DBusValue
  uuids : DBusValue
  modalias : Option DBusValue
deriving DecidableEq

/-- One identifier per `case` arm of the `switch` in
`Adapter.listenForChanges`. -/
inductive AdapterField where
  | address | name | aliasName | cls | powered | discoverable | pairable
  | pairableTimeout | discoverableTimeout | discovering | uuids | modalias
deriving DecidableEq

/-- The assignment performed by each `case` arm of the `switch` in
`Adapter.listenForChanges` (e.g. `case 'Powered': this._powered = value`). -/
def Adapter.writeField : AdapterField → DBusValue → AdapterState → AdapterState
  | .address, v, s => { s with address := v }
  | .name, v, s => { s with name := v }
  | .aliasName, v, s => { s with aliasName := v }
  | .cls, v, s => { s with cls := v }
  | .powered, v, s => { s with powered := v }
  | .discoverable, v, s => { s with discoverable := v }
  | .pairable, v, s => { s with pairable := v }
  | .pairableTimeout, v, s => { s with pairableTimeout := v }
  | .discoverableTimeout, v, s => { s with discoverableTimeout := v }
  | .discovering, v, s => { s with discovering := v }
  | .uuids, v, s => { s with uuids := v }
  | .modalias, v, s => { s with modalias := some v }

/-- The static property-name→field mapping of the `switch` in
`Adapter.listenForChanges`, one row per `case` label. -/
def Adapter.propTable : List (String × AdapterField) :=
  [("Address", .address), ("Name", .name), ("Alias", .aliasName), ("Class", .cls),
   ("Powered", .powered), ("Discoverable", .discoverable), ("Pairable", .pairable),
   ("PairableTimeout", .pairableTimeout), ("DiscoverableTimeout", .discoverableTimeout),
   ("Discovering", .discovering), ("UUIDs", .uuids), ("Modalias", .modalias)]

/-- The `console.warn` text of the `default:` arm, up to the property name. -/
def Adapter.warnText : String := "bluen: Adapter: Unhandled property change: "

/-- The `PropertiesChanged` callback registered by `Adapter.listenForChanges`:
discard the notification unless its interface is `org.bluez.Adapter1`;
otherwise run the property loop.  Result: (fields, number of `change` events
emitted, warnings logged). -/
def Adapter.listenForChanges (s : AdapterState) (iface : String)
    (props : List (String × VariantVal)) : AdapterState × Nat × List String :=
  if iface ≠ adapterInterface then (s, 0, [])
  else props.foldl (stepEmit Adapter.writeField Adapter.propTable Adapter.warnText) (s, 0, [])

/-- Reading `.value` of a snapshot entry: present → the unwrapped value,
absent → the construction-time failure the spec calls the
"missing required property" error (in the source, the `TypeError` raised by
reading `.value` of `undefined`). -/
def requireProp (bag : Bag) (prop : String) : Except String DBusValue :=
  match bag.lookup prop with
  | some w => Except.ok w.value
  | none => Except.error ("missing required property: " ++ prop)

/-- `Adapter.fromDBusObject`: construct an adapter from `(path, bag)`.  Each
required property is read exactly as the source's object literal does, in
literal order; `Modalias` uses optional chaining (`?.`) and the constructor's
`?? null`. -/
def Adapter.fromDBusObject : String × Bag → Except String AdapterState
  | (path, bag) => do
  let address ← requireProp bag "Address"
  let name ← requireProp bag "Name"
  let aliasName ← requireProp bag "Alias"
  let cls ← requireProp bag "Class"
  let powered ← requireProp bag "Powered"
  let discoverable ← requireProp bag "Discoverable"
  let pairable ← requireProp bag "Pairable"
  let pairableTimeout ← requireProp bag "PairableTimeout"
  let discoverableTimeout ← requireProp bag "DiscoverableTimeout"
  let discovering ← requireProp bag "Discovering"
  let uuids ← requireProp bag "UUIDs"
  let modalias := (bag.lookup "Modalias").map (fun w => w.value)
  return { path := path, address, name, aliasName, cls, powered, discoverable,
           pairable, pairableTimeout, discoverableTimeout, discovering, uuids, modalias }

/-- The names of the adapter properties read without optional chaining in
`Adapter.fromDBusObject`. -/
def Adapter.requiredProps : List String :=
  ["Address", "Name", "Alias", "Class", "Powered", "Discoverable", "Pairable",
   "PairableTimeout", "DiscoverableTimeout", "Discovering", "UUIDs"]

/-- A detached remote property-set call (`propManager.Set(iface, prop,
new Variant(signature, val))`), as issued by `setProperty`.  Its promise is
discarded by the property setters, and its body contains no writes to the
entity's fields. -/
structure RemoteSetCall where
  iface : String
  prop : String
  signature : String
  val : DBusValue
deriving DecidableEq

/-- `Adapter.setProperty`: the remote call the adapter issues. -/
def Adapter.setProperty (prop signature : String) (v : DBusValue) : RemoteSetCall :=
  { iface := adapterInterface, prop := prop, signature := signature, val := v }

/-- `set alias(v)`: synchronous local assignment, then the detached remote call. -/
def Adapter.setAlias (s : AdapterState) (v : DBusValue) : AdapterState × RemoteSetCall :=
  ({ s with aliasName := v }, Adapter.setProperty "Alias" "s" v)

/-- `set powered(v)`. -/
def Adapter.setPowered (s : AdapterState) (v : DBusValue) : AdapterState × RemoteSetCall :=
  ({ s with powered := v }, Adapter.setProperty "Powered" "b" v)

/-- `set discoverable(v)`. -/
def Adapter.setDiscoverable (s : AdapterState) (v : DBusValue) : AdapterState × RemoteSetCall :=
  ({ s with discoverable := v }, Adapter.setProperty "Discoverable" "b" v)

/-- `set pairable(v)`. -/
def Adapter.setPairable (s : AdapterState) (v : DBusValue) : AdapterState × RemoteSetCall :=
  ({ s with pairable := v }, Adapter.setProperty "Pairable" "b" v)

/-- `set pairableTimeout(v)`. -/
def Adapter.setPairableTimeout (s : AdapterState) (v : DBusValue) : AdapterState × RemoteSetCall :=
  ({ s with pairableTimeout := v }, Adapter.setProperty "PairableTimeout" "u" v)

/-- `set discoverableTimeout(v)`. -/
def Adapter.setDiscoverableTimeout (s : AdapterState) (v : DBusValue) : AdapterState × RemoteSetCall :=
  ({ s with discoverableTimeout := v }, Adapter.setProperty "DiscoverableTimeout" "u" v)

/-- How the outcome of a detached `setProperty` call settles from the
entity's point of view: the call's body writes no entity field and nobody
holds its promise, so on success and on failure alike the fields are
untouched and no error reaches the setter's caller. -/
def settleRemoteSet {σ : Type} (s : σ) (_call : RemoteSetCall)
    (_failed : Bool) : σ × Option String :=
  (s, none)

theorem adapter_write_write_self (f : AdapterField) (v v' : DBusValue) (s : AdapterState) :
    Adapter.writeField f v' (Adapter.writeField f v s) = Adapter.writeField f v' s := by
  cases f <;> rfl

theorem adapter_write_comm (f g : AdapterField) (h : f ≠ g) (v w : DBusValue)
    (s : AdapterState) :
    Adapter.writeField f v (Adapter.writeField g w s)
      = Adapter.writeField g w (Adapter.writeField f v s) := by
  cases f <;> cases g <;> first | rfl | exact absurd rfl h

theorem adapter_table_nodup : (Adapter.propTable.map (fun e => e.2)).Nodup := by decide

/-! ## Device (`src/lib/bluez.ts`) -/

/-- The fixed interface identity of a Device (`'org.bluez.Device1'`). -/
def deviceInterface : String := "org.bluez.Device1"

/-- Modelled from the spec: `Adapter.fromPath` is called by `Device` (at
construction and in the `'Adapter'` arm of its change handler) but is not
present under `src/`; per the spec it is "a fresh `Adapter`-from-path
lookup" resolving the referenced Adapter from its object path, so its
result is modelled as a handle carrying that path. -/
structure ResolvedAdapter where
  path : DBusValue
deriving DecidableEq

/-- Modelled from the spec: the `Adapter`-from-path lookup itself. -/
def Adapter.fromPath (p : DBusValue) : ResolvedAdapter := { path := p }

/-- The private fields of the `Device` class.  `cls` embeds `_class` and
`aliasName` embeds `_alias`; optional TypeScript fields (`T | null`) are
`Option`s.  `adapter` is `Option ResolvedAdapter`: `undefined` (here `none`)
from construction until the asynchronous `Adapter.fromPath` resolution
first completes. -/
structure DeviceState where
  path : String
  name : Option DBusValue
  icon : Option DBusValue
  cls : Option DBusValue
  appearance : Option DBusValue
  uuids : Option DBusValue
  paired : DBusValue
  connected : DBusValue
  trusted : DBusValue
  blocked : DBusValue
  aliasName : DBusValue
  adapter : Option ResolvedAdapter
  legacyPairing : DBusValue
  modalias : Option DBusValue
  rssi : Option DBusValue
  txPower : Option DBusValue
  manufacturerData : Option DBusValue
  serviceData : Option DBusValue
  gattServices : Option DBusValue
deriving DecidableEq

/-- One identifier per `case` arm of the `switch` in
`Device.listenForChanges`. -/
inductive DeviceField where
  | name | icon | cls | appearance | uuids | paired | connected | trusted
  | blocked | aliasName | adapter | legacyPairing | modalias | rssi | txPower
  | manufacturerData | serviceData | gattServices
deriving DecidableEq

/-- The assignment performed by each `case` arm of the `switch` in
`Device.listenForChanges`.  The `'Adapter'` arm performs
`this._adapter = await Adapter.fromPath(value)`: within the sequential
handler this stores the freshly resolved adapter. -/
def Device.writeField : DeviceField → DBusValue → DeviceState → DeviceState
  | .name, v, s => { s with name := some v }
  | .icon, v, s => { s with icon := some v }
  | .cls, v, s => { s with cls := some v }
  | .appearance, v, s => { s with appearance := some v }
  | .uuids, v, s => { s with uuids := some v }
  | .paired, v, s => { s with paired := v }
  | .connected, v, s => { s with connected := v }
  | .trusted, v, s => { s with trusted := v }
  | .blocked, v, s => { s with blocked := v }
  | .aliasName, v, s => { s with aliasName := v }
  | .adapter, v, s => { s with adapter := some (Adapter.fromPath v) }
  | .legacyPairing, v, s => { s with legacyPairing := v }
  | .modalias, v, s => { s with modalias := some v }
  | .rssi, v, s => { s with rssi := some v }
  | .txPower, v, s => { s with txPower := some v }
  | .manufacturerData, v, s => { s with manufacturerData := some v }
  | .serviceData, v, s => { s with serviceData := some v }
  | .gattServices, v, s => { s with gattServices := some v }

/-- The static property-name→field mapping of the `switch` in
`Device.listenForChanges`, one row per `case` label. -/
def Device.propTable : List (String × DeviceField) :=
  [("Name", .name), ("Icon", .icon), ("Class", .cls), ("Appearance", .appearance),
   ("UUIDs", .uuids), ("Paired", .paired), ("Connected", .connected),
   ("Trusted", .trusted), ("Blocked", .blocked), ("Alias", .aliasName),
   ("Adapter", .adapter), ("LegacyPairing", .legacyPairing), ("Modalias", .modalias),
   ("RSSI", .rssi), ("TxPower", .txPower), ("ManufacturerData", .manufacturerData),
   ("ServiceData", .serviceData), ("GattServices", .gattServices)]

/-- The `console.warn` text of the `default:` arm, up to the property name. -/
def Device.warnText : String := "bluen: Device: Unhandled property change: "

/-- The `PropertiesChanged` callback registered by `Device.listenForChanges`:
discard the notification unless its interface is `org.bluez.Device1`;
otherwise run the property loop.  Result: (fields, number of `change` events
emitted, warnings logged). -/
def Device.listenForChanges (s : DeviceState) (iface : String)
    (props : List (String × VariantVal)) : DeviceState × Nat × List String :=
  if iface ≠ deviceInterface then (s, 0, [])
  else props.foldl (stepEmit Device.writeField Device.propTable Device.warnText) (s, 0, [])

/-- The result of running the `Device` constructor: the fields as
initialized synchronously (with `_adapter` still unset), together with the
adapter object path handed to the `Adapter.fromPath(...)` lookup spawned by
the constructor (whose `.then` continuation is `Device.resolveAdapterStep`).
Construction does not wait for that lookup. -/
structure DeviceCtor where
  state : DeviceState
  pendingAdapterLookup : DBusValue
deriving DecidableEq

/-- The `.then((adapter) => (this._adapter = adapter))` continuation of the
lookup spawned by the `Device` constructor, run when the lookup completes. -/
def Device.resolveAdapterStep (s : DeviceState) (p : DBusValue) : DeviceState :=
  { s with adapter := some (Adapter.fromPath p) }

/-- `Device.fromDBusObject`: construct a device from `(path, bag)`.  Reads
follow the source's object literal in order: the five leading optional
properties use optional chaining, the seven required ones read `.value`
directly, the trailing six are optional again; the constructor then applies
`?? null` to the optionals and spawns the adapter lookup for the decoded
`Adapter` path. -/
def Device.fromDBusObject : String × Bag → Except String DeviceCtor
  | (path, bag) => do
  let name := (bag.lookup "Name").map (fun w => w.value)
  let icon := (bag.lookup "Icon").map (fun w => w.value)
  let cls := (bag.lookup "Class").map (fun w => w.value)
  let appearance := (bag.lookup "Appearance").map (fun w => w.value)
  let uuids := (bag.lookup "UUIDs").map (fun w => w.value)
  let paired ← requireProp bag "Paired"
  let connected ← requireProp bag "Connected"
  let trusted ← requireProp bag "Trusted"
  let blocked ← requireProp bag "Blocked"
  let aliasName ← requireProp bag "Alias"
  let adapterPath ← requireProp bag "Adapter"
  let legacyPairing ← requireProp bag "LegacyPairing"
  let modalias := (bag.lookup "Modalias").map (fun w => w.value)
  let rssi := (bag.lookup "RSSI").map (fun w => w.value)
  let txPower := (bag.lookup "TxPower").map (fun w => w.value)
  let manufacturerData := (bag.lookup "ManufacturerData").map (fun w => w.value)
  let serviceData := (bag.lookup "ServiceData").map (fun w => w.value)
  let gattServices := (bag.lookup "GattServices").map (fun w => w.value)
  return { state := { path := path, name, icon, cls, appearance, uuids, paired,
                      connected, trusted, blocked, aliasName, adapter := none,
                      legacyPairing, modalias, rssi, txPower, manufacturerData,
                      serviceData, gattServices },
           pendingAdapterLookup := adapterPath }

/-- The names of the device properties read without optional chaining in
`Device.fromDBusObject`. -/
def Device.requiredProps : List String :=
  ["Paired", "Connected", "Trusted", "Blocked", "Alias", "Adapter", "LegacyPairing"]

/-- `Device.setProperty`: the remote call the device issues. -/
def Device.setProperty (prop signature : String) (v : DBusValue) : RemoteSetCall :=
  { iface := deviceInterface, prop := prop, signature := signature, val := v }

/-- `set trusted(v)`: synchronous local assignment, then the detached remote call. -/
def Device.setTrusted (s : DeviceState) (v : DBusValue) : DeviceState × RemoteSetCall :=
  ({ s with trusted := v }, Device.setProperty "Trusted" "b" v)

/-- `set blocked(v)`. -/
def Device.setBlocked (s : DeviceState) (v : DBusValue) : DeviceState × RemoteSetCall :=
  ({ s with blocked := v }, Device.setProperty "Blocked" "b" v)

/-- `set alias(v)`. -/
def Device.setAlias (s : DeviceState) (v : DBusValue) : DeviceState × RemoteSetCall :=
  ({ s with aliasName := v }, Device.setProperty "Alias" "s" v)

/-- `path.startsWith(prefixStr)` of JavaScript, on the characters of the
two strings. -/
def pathStartsWith (path prefixStr : String) : Bool :=
  prefixStr.toList.isPrefixOf path.toList

/-- The filter/map pipeline of `Device.allOfAdapter` applied to the result
of its single `GetManagedObjects` query: keep the entries whose object path
starts with the adapter's path, of those keep the entries whose interface
set includes `org.bluez.Device1`, and pair each surviving path with that
interface's property bag. -/
def Device.allOfAdapterEntries (adapterPath : String)
    (objects : List (String × List (String × Bag))) : List (String × Bag) :=
  (((objects.filter (fun e => pathStartsWith e.1 adapterPath)).filter
      (fun e => (e.2.lookup deviceInterface).isSome)).map
    (fun e => (e.1, (e.2.lookup deviceInterface).getD [])))

/-- `Device.allOfAdapter`: map each surviving entry through
`Device.fromDBusObject` (a construction failure rejects the whole call, as a
thrown exception does inside `Array.map`). -/
def Device.allOfAdapter (adapterPath : String)
    (objects : List (String × List (String × Bag))) : Except String (List DeviceCtor) :=
  (Device.allOfAdapterEntries adapterPath objects).mapM Device.fromDBusObject

theorem device_write_write_self (f : DeviceField) (v v' : DBusValue) (s : DeviceState) :
    Device.writeField f v' (Device.writeField f v s) = Device.writeField f v' s := by
  cases f <;> rfl

theorem device_write_comm (f g : DeviceField) (h : f ≠ g) (v w : DBusValue)
    (s : DeviceState) :
    Device.writeField f v (Device.writeField g w s)
      = Device.writeField g w (Device.writeField f v s) := by
  cases f <;> cases g <;> first | rfl | exact absurd rfl h

theorem device_table_nodup : (Device.propTable.map (fun e => e.2)).Nodup := by decide

/-! ## Battery (battery module) -/

/-- The fixed interface identity of a Battery (`'org.bluez.Battery1'`). -/
def batteryInterface : String := "org.bluez.Battery1"

/-- The private fields of the `Battery` class: required `percentage`,
optional `source` (TypeScript `string | null`). -/
structure BatteryState where
  path : String
  percentage : DBusValue
  source : Option DBusValue
deriving DecidableEq

/-- One identifier per `case` arm of the `switch` in
`Battery.listenForChanges`. -/
inductive BatteryField where
  | percentage | source
deriving DecidableEq

/-- The assignment performed by each `case` arm of the `switch` in
`Battery.listenForChanges`. -/
def Battery.writeField : BatteryField → DBusValue → BatteryState → BatteryState
  | .percentage, v, s => { s with percentage := v }
  | .source, v, s => { s with source := some v }

/-- The static property-name→field mapping of the `switch` in
`Battery.listenForChanges`. -/
def Battery.propTable : List (String × BatteryField) :=
  [("Percentage", .percentage), ("Source", .source)]

/-- The `console.warn` text of the `default:` arm, up to the property name. -/
def Battery.warnText : String := "bluen: Battery: Unhandled property change: "

/-- The `PropertiesChanged` callback registered by
`Battery.listenForChanges`: discard the notification unless its interface is
`org.bluez.Battery1`; otherwise run the property loop and then — outside the
loop, unconditionally — `this.emit('change')` once.  Result: (fields, number
of `change` events emitted, warnings logged). -/
def Battery.listenForChanges (s : BatteryState) (iface : String)
    (props : List (String × VariantVal)) : BatteryState × Nat × List String :=
  if iface ≠ batteryInterface then (s, 0, [])
  else
    let r := props.foldl (stepNoEmit Battery.writeField Battery.propTable Battery.warnText) (s, [])
    (r.1, 1, r.2)

/-- The `Battery` constructor body: `percentage` from the data, `source`
with `?? null` applied. -/
def Battery.construct (path : String) (percentage : DBusValue)
    (source : Option DBusValue) : BatteryState :=
  { path := path, percentage := percentage, source := source }

/-- The error thrown by `Battery.ofDevice` when the device's managed object
does not expose `org.bluez.Battery1`. -/
def Battery.unsupportedMsg : String :=
  "bluen: Battery: Device does not support battery charge status interface"

/-- `Battery.ofDevice`, on the result of its single `GetManagedObjects`
query (`objects`) and with the `Properties.Get` calls of its `getProperty`
helper abstracted as the oracle `getProp` (a remote `Get` either yields a
wrapped value or rejects): look up the entry at the device's path (indexing
a JS object at an absent key gives `undefined`, and `Object.keys(undefined)`
throws — modelled as an error); fail with `unsupportedMsg` if that entry's
interface set lacks `org.bluez.Battery1`; otherwise fetch `Percentage` and
`Source` and run the constructor. -/
def Battery.ofDevice (devicePath : String)
    (objects : List (String × List (String × Bag)))
    (getProp : String → Except String DBusValue) : Except String BatteryState := do
  match objects.lookup devicePath with
  | none => Except.error "TypeError: Object.keys called on undefined"
  | some ifaces =>
    if (ifaces.lookup batteryInterface).isSome then do
      let percentage ← getProp "Percentage"
      let source ← getProp "Source"
      return Battery.construct devicePath percentage (some source)
    else
      Except.error Battery.unsupportedMsg

theorem battery_write_write_self (f : BatteryField) (v v' : DBusValue) (s : BatteryState) :
    Battery.writeField f v' (Battery.writeField f v s) = Battery.writeField f v' s := by
  cases f <;> rfl

theorem battery_write_comm (f g : BatteryField) (h : f ≠ g) (v w : DBusValue)
    (s : BatteryState) :
    Battery.writeField f v (Battery.writeField g w s)
      = Battery.writeField g w (Battery.writeField f v s) := by
  cases f <;> cases g <;> first | rfl | exact absurd rfl h

theorem battery_table_nodup : (Battery.propTable.map (fun e => e.2)).Nodup := by decide

/-! ## Shared sample states and handler-shape lemmas -/

/-- A concrete constructed adapter (used as a witness input). -/
def sampleAdapter : AdapterState :=
  { path := "/org/bluez/hci0", address := .str "00:11:22:33:44:55", name := .str "hci0",
    aliasName := .str "hci0", cls := .int 0, powered := .bool false,
    discoverable := .bool false, pairable := .bool false, pairableTimeout := .int 0,
    discoverableTimeout := .int 180, discovering := .bool false,
    uuids := .strList [], modalias := none }

/-- A concrete constructed device (used as a witness input). -/
def sampleDevice : DeviceState :=
  { path := "/org/bluez/hci0/dev_AA_BB_CC_DD_EE_FF", name := none, icon := none,
    cls := none, appearance := none, uuids := none, paired := .bool false,
    connected := .bool false, trusted := .bool false, blocked := .bool false,
    aliasName := .str "dev", adapter := none, legacyPairing := .bool false,
    modalias := none, rssi := none, txPower := none, manufacturerData := none,
    serviceData := none, gattServices := none }

/-- A concrete constructed battery (used as a witness input). -/
def sampleBattery : BatteryState :=
  { path := "/org/bluez/hci0/dev_AA_BB_CC_DD_EE_FF", percentage := .int 80, source := none }

theorem adapter_listen_match (s : AdapterState) (props : List (String × VariantVal)) :
    Adapter.listenForChanges s adapterInterface props
      = props.foldl (stepEmit Adapter.writeField Adapter.propTable Adapter.warnText) (s, 0, []) := by
  simp [Adapter.listenForChanges]

theorem device_listen_match (s : DeviceState) (props : List (String × VariantVal)) :
    Device.listenForChanges s deviceInterface props
      = props.foldl (stepEmit Device.writeField Device.propTable Device.warnText) (s, 0, []) := by
  simp [Device.listenForChanges]

theorem battery_listen_match (s : BatteryState) (props : List (String × VariantVal)) :
    Battery.listenForChanges s batteryInterface props
      = ((props.foldl (stepNoEmit Battery.writeField Battery.propTable Battery.warnText) (s, [])).1,
         1,
         (props.foldl (stepNoEmit Battery.writeField Battery.propTable Battery.warnText) (s, [])).2) := by
  simp [Battery.listenForChanges]

/-! ## Claim theorems: change-notification behavior -/

/-- C2: a notification whose declared interface differs from the entity's
own interface leaves every field unchanged, raises no `change` event and
logs nothing, for each of Adapter, Device and Battery. -/
theorem foreign_interface_notification_ignored (iface : String) :
    (iface ≠ adapterInterface → ∀ (s : AdapterState) (props : List (String × VariantVal)),
      Adapter.listenForChanges s iface props = (s, 0, []))
    ∧ (iface ≠ deviceInterface → ∀ (s : DeviceState) (props : List (String × VariantVal)),
      Device.listenForChanges s iface props = (s, 0, []))
    ∧ (iface ≠ batteryInterface → ∀ (s : BatteryState) (props : List (String × VariantVal)),
      Battery.listenForChanges s iface props = (s, 0, [])) := by
  refine ⟨fun h s props => ?_, fun h s props => ?_, fun h s props => ?_⟩
  · simp [Adapter.listenForChanges, h]
  · simp [Device.listenForChanges, h]
  · simp [Battery.listenForChanges, h]

/-- C2 witness: concrete cross-interface notifications are ignored (an
Adapter notification hitting a Device and vice versa, and a Device
notification hitting a Battery). -/
theorem foreign_interface_notification_ignored_witness :
    Adapter.listenForChanges sampleAdapter "org.bluez.Device1"
        [("Powered", ⟨.bool true⟩)] = (sampleAdapter, 0, [])
    ∧ Device.listenForChanges sampleDevice "org.bluez.Adapter1"
        [("Trusted", ⟨.bool true⟩)] = (sampleDevice, 0, [])
    ∧ Battery.listenForChanges sampleBattery "org.bluez.Device1"
        [("Percentage", ⟨.int 55⟩)] = (sampleBattery, 0, []) :=
  ⟨(foreign_interface_notification_ignored "org.bluez.Device1").1 (by decide) _ _,
   (foreign_interface_notification_ignored "org.bluez.Adapter1").2.1 (by decide) _ _,
   (foreign_interface_notification_ignored "org.bluez.Device1").2.2 (by decide) _ _⟩

/-- C1 counterexample: the claim "exactly one `change` event per
matching-interface notification when at least one field changed, none when
no field changed" fails on the code.  A two-property Adapter notification
changes two fields yet emits two events (the `emit` sits inside the
property loop), and a Battery notification with only an unrecognized
property changes no field yet emits one event (the Battery `emit` sits
after the loop, unconditionally). -/
theorem change_event_count_cex :
    (Adapter.listenForChanges sampleAdapter adapterInterface
        [("Powered", ⟨.bool true⟩), ("Discovering", ⟨.bool true⟩)]).2.1 = 2
    ∧ (Adapter.listenForChanges sampleAdapter adapterInterface
        [("Powered", ⟨.bool true⟩), ("Discovering", ⟨.bool true⟩)]).2.1 ≠ 1
    ∧ (Adapter.listenForChanges sampleAdapter adapterInterface
        [("Powered", ⟨.bool true⟩), ("Discovering", ⟨.bool true⟩)]).1 ≠ sampleAdapter
    ∧ (Battery.listenForChanges sampleBattery batteryInterface
        [("Bogus", ⟨.int 1⟩)]).1 = sampleBattery
    ∧ (Battery.listenForChanges sampleBattery batteryInterface
        [("Bogus", ⟨.int 1⟩)]).2.1 = 1
    ∧ (Battery.listenForChanges sampleBattery batteryInterface
        [("Bogus", ⟨.int 1⟩)]).2.1 ≠ 0 := by
  refine ⟨by decide, by decide, by decide, by decide, by decide, by decide⟩

/-- C1 (amended): on a matching-interface notification, Adapter and Device
raise one `change` event per recognized property (so k events for k
recognized properties, and none when none is recognized), while Battery
raises exactly one `change` event per notification regardless of whether
any field changed. -/
theorem change_event_counts (sa : AdapterState) (sd : DeviceState) (sb : BatteryState)
    (props : List (String × VariantVal)) :
    (Adapter.listenForChanges sa adapterInterface props).2.1
      = countRecognized Adapter.propTable props
    ∧ (Device.listenForChanges sd deviceInterface props).2.1
      = countRecognized Device.propTable props
    ∧ (Battery.listenForChanges sb batteryInterface props).2.1 = 1 := by
  refine ⟨?_, ?_, ?_⟩
  · rw [adapter_listen_match]
    simpa using foldl_stepEmit_count Adapter.writeField Adapter.propTable Adapter.warnText props sa 0 []
  · rw [device_listen_match]
    simpa using foldl_stepEmit_count Device.writeField Device.propTable Device.warnText props sd 0 []
  · rw [battery_listen_match]

/-- C10: a matching-interface Battery notification raises exactly one
`change` event unconditionally — in particular even when every property
name in it is unrecognized, in which case no field changes either. -/
theorem battery_change_event_unconditional (s : BatteryState)
    (props : List (String × VariantVal)) :
    (Battery.listenForChanges s batteryInterface props).2.1 = 1
    ∧ ((∀ p ∈ props, Battery.propTable.lookup p.1 = none) →
        (Battery.listenForChanges s batteryInterface props).1 = s) := by
  constructor
  · rw [battery_listen_match]
  · intro h
    rw [battery_listen_match]
    rw [foldl_stepNoEmit_fst]
    rw [← applyEntries_filter_recognized]
    have : props.filter (fun p => (Battery.propTable.lookup p.1).isSome) = [] := by
      apply List.filter_eq_nil_iff.mpr
      intro p hp
      simp [h p hp]
    rw [this]
    rfl

/-- C10 witness: a Battery notification carrying only the unknown property
`Bogus2` changes nothing but still emits exactly one `change` event. -/
theorem battery_change_event_unconditional_witness :
    (Battery.listenForChanges sampleBattery batteryInterface [("Bogus2", ⟨.int 7⟩)]).2.1 = 1
    ∧ (Battery.listenForChanges sampleBattery batteryInterface [("Bogus2", ⟨.int 7⟩)]).1
        = sampleBattery :=
  ⟨(battery_change_event_unconditional sampleBattery [("Bogus2", ⟨.int 7⟩)]).1,
   (battery_change_event_unconditional sampleBattery [("Bogus2", ⟨.int 7⟩)]).2 (by decide)⟩

/-- C4: for a constructed Adapter or Device, applying matching-interface
notification N then notification N+1 yields the same final field values as
applying the single notification equal to their field-wise union in which
N+1's values take precedence for overlapping property names
(last-write-wins; each assignment replaces the previous value entirely). -/
theorem notification_last_write_wins (sa : AdapterState) (sd : DeviceState)
    (n1 n2 : List (String × VariantVal)) :
    (Adapter.listenForChanges (Adapter.listenForChanges sa adapterInterface n1).1
        adapterInterface n2).1
      = (Adapter.listenForChanges sa adapterInterface (unionNotif n1 n2)).1
    ∧ (Device.listenForChanges (Device.listenForChanges sd deviceInterface n1).1
        deviceInterface n2).1
      = (Device.listenForChanges sd deviceInterface (unionNotif n1 n2)).1 := by
  constructor
  · rw [adapter_listen_match, adapter_listen_match, adapter_listen_match,
      foldl_stepEmit_fst, foldl_stepEmit_fst, foldl_stepEmit_fst]
    exact applyEntries_union Adapter.writeField Adapter.propTable
      adapter_write_write_self adapter_write_comm adapter_table_nodup n1 n2 sa
  · rw [device_listen_match, device_listen_match, device_listen_match,
      foldl_stepEmit_fst, foldl_stepEmit_fst, foldl_stepEmit_fst]
    exact applyEntries_union Device.writeField Device.propTable
      device_write_write_self device_write_comm device_table_nodup n1 n2 sd

/-- C5: inside a matching-interface notification, unknown property names are
logged (one diagnostic each, in order) and skipped without aborting the
notification: the resulting fields coincide with those produced by the
notification restricted to its recognized properties, for each of Adapter,
Device and Battery. -/
theorem unknown_properties_logged_and_skipped (sa : AdapterState) (sd : DeviceState)
    (sb : BatteryState) (props : List (String × VariantVal)) :
    (Adapter.listenForChanges sa adapterInterface props).1
      = (Adapter.listenForChanges sa adapterInterface
          (props.filter (fun p => (Adapter.propTable.lookup p.1).isSome))).1
    ∧ (Adapter.listenForChanges sa adapterInterface props).2.2
      = unrecognizedWarnings Adapter.propTable Adapter.warnText props
    ∧ (Device.listenForChanges sd deviceInterface props).1
      = (Device.listenForChanges sd deviceInterface
          (props.filter (fun p => (Device.propTable.lookup p.1).isSome))).1
    ∧ (Device.listenForChanges sd deviceInterface props).2.2
      = unrecognizedWarnings Device.propTable Device.warnText props
    ∧ (Battery.listenForChanges sb batteryInterface props).1
      = (Battery.listenForChanges sb batteryInterface
          (props.filter (fun p => (Battery.propTable.lookup p.1).isSome))).1
    ∧ (Battery.listenForChanges sb batteryInterface props).2.2
      = unrecognizedWarnings Battery.propTable Battery.warnText props := by
  refine ⟨?_, ?_, ?_, ?_, ?_, ?_⟩
  · rw [adapter_listen_match, adapter_listen_match, foldl_stepEmit_fst, foldl_stepEmit_fst,
      applyEntries_filter_recognized]
  · rw [adapter_listen_match]
    simpa using foldl_stepEmit_warn Adapter.writeField Adapter.propTable Adapter.warnText props sa 0 []
  · rw [device_listen_match, device_listen_match, foldl_stepEmit_fst, foldl_stepEmit_fst,
      applyEntries_filter_recognized]
  · rw [device_listen_match]
    simpa using foldl_stepEmit_warn Device.writeField Device.propTable Device.warnText props sd 0 []
  · rw [battery_listen_match, battery_listen_match, foldl_stepNoEmit_fst, foldl_stepNoEmit_fst,
      applyEntries_filter_recognized]
  · rw [battery_listen_match]
    simpa using foldl_stepNoEmit_warn Battery.writeField Battery.propTable Battery.warnText props sb []

/-- C8: every mutable-property setter (Adapter: alias, powered,
discoverable, pairable, pairableTimeout, discoverableTimeout; Device:
trusted, blocked, alias) assigns the local field synchronously, before the
detached remote `Set` call settles, so the new value is immediately
readable through the accessor; and whatever the outcome of that detached
call (success or failure), the local field keeps the assigned value — no
rollback — and no error is surfaced to the setter's caller. -/
theorem setters_optimistic_no_rollback (sa : AdapterState) (sd : DeviceState)
    (v : DBusValue) (failed : Bool) :
    (Adapter.setAlias sa v).1.aliasName = v
    ∧ (Adapter.setPowered sa v).1.powered = v
    ∧ (Adapter.setDiscoverable sa v).1.discoverable = v
    ∧ (Adapter.setPairable sa v).1.pairable = v
    ∧ (Adapter.setPairableTimeout sa v).1.pairableTimeout = v
    ∧ (Adapter.setDiscoverableTimeout sa v).1.discoverableTimeout = v
    ∧ (Device.setTrusted sd v).1.trusted = v
    ∧ (Device.setBlocked sd v).1.blocked = v
    ∧ (Device.setAlias sd v).1.aliasName = v
    ∧ settleRemoteSet (Adapter.setAlias sa v).1 (Adapter.setAlias sa v).2 failed
        = ((Adapter.setAlias sa v).1, none)
    ∧ settleRemoteSet (Adapter.setPowered sa v).1 (Adapter.setPowered sa v).2 failed
        = ((Adapter.setPowered sa v).1, none)
    ∧ settleRemoteSet (Adapter.setDiscoverable sa v).1 (Adapter.setDiscoverable sa v).2 failed
        = ((Adapter.setDiscoverable sa v).1, none)
    ∧ settleRemoteSet (Adapter.setPairable sa v).1 (Adapter.setPairable sa v).2 failed
        = ((Adapter.setPairable sa v).1, none)
    ∧ settleRemoteSet (Adapter.setPairableTimeout sa v).1 (Adapter.setPairableTimeout sa v).2 failed
        = ((Adapter.setPairableTimeout sa v).1, none)
    ∧ settleRemoteSet (Adapter.setDiscoverableTimeout sa v).1 (Adapter.setDiscoverableTimeout sa v).2 failed
        = ((Adapter.setDiscoverableTimeout sa v).1, none)
    ∧ settleRemoteSet (Device.setTrusted sd v).1 (Device.setTrusted sd v).2 failed
        = ((Device.setTrusted sd v).1, none)
    ∧ settleRemoteSet (Device.setBlocked sd v).1 (Device.setBlocked sd v).2 failed
        = ((Device.setBlocked sd v).1, none)
    ∧ settleRemoteSet (Device.setAlias sd v).1 (Device.setAlias sd v).2 failed
        = ((Device.setAlias sd v).1, none) :=
  ⟨rfl, rfl, rfl, rfl, rfl, rfl, rfl, rfl, rfl, rfl, rfl, rfl, rfl, rfl, rfl, rfl, rfl, rfl⟩

/-! ## Construction characterization -/

theorem requireProp_bind_some {α : Type} {bag : Bag} {p : String} {w : VariantVal}
    {f : DBusValue → Except String α} (h : bag.lookup p = some w) :
    (requireProp bag p >>= f) = f w.value := by
  simp [requireProp, h, Bind.bind, Except.bind]

theorem requireProp_bind_none {α : Type} {bag : Bag} {p : String}
    {f : DBusValue → Except String α} (h : bag.lookup p = none) :
    (requireProp bag p >>= f) = Except.error ("missing required property: " ++ p) := by
  simp [requireProp, h, Bind.bind, Except.bind]

/-- The value a present bag entry decodes to (with an irrelevant default for
the absent case; only used under a presence hypothesis). -/
def bagValD (bag : Bag) (p : String) : DBusValue :=
  ((bag.lookup p).map (fun w => w.value)).getD (DBusValue.int 0)

/-- The first required property missing from a bag, in declaration order. -/
def firstMissing (bag : Bag) (props : List String) : Option String :=
  props.find? (fun p => (bag.lookup p).isNone)

/-- Complete case analysis of `Adapter.fromDBusObject`: it fails on the
first missing required property and otherwise yields the decoded record. -/
theorem adapter_fromDBus_eq (path : String) (bag : Bag) :
    Adapter.fromDBusObject (path, bag) =
      match firstMissing bag Adapter.requiredProps with
      | some p => Except.error ("missing required property: " ++ p)
      | none => Except.ok
          { path := path, address := bagValD bag "Address", name := bagValD bag "Name",
            aliasName := bagValD bag "Alias", cls := bagValD bag "Class",
            powered := bagValD bag "Powered", discoverable := bagValD bag "Discoverable",
            pairable := bagValD bag "Pairable",
            pairableTimeout := bagValD bag "PairableTimeout",
            discoverableTimeout := bagValD bag "DiscoverableTimeout",
            discovering := bagValD bag "Discovering", uuids := bagValD bag "UUIDs",
            modalias := (bag.lookup "Modalias").map (fun w => w.value) } := by
  simp only [Adapter.fromDBusObject]
  cases h1 : bag.lookup "Address" with
  | none => simp [requireProp_bind_none h1, firstMissing, Adapter.requiredProps, List.find?, h1]
  | some w1 =>
  simp only [requireProp_bind_some h1]
  cases h2 : bag.lookup "Name" with
  | none => simp [requireProp_bind_none h2, firstMissing, Adapter.requiredProps, List.find?, h1, h2]
  | some w2 =>
  simp only [requireProp_bind_some h2]
  cases h3 : bag.lookup "Alias" with
  | none => simp [requireProp_bind_none h3, firstMissing, Adapter.requiredProps, List.find?, h1, h2, h3]
  | some w3 =>
  simp only [requireProp_bind_some h3]
  cases h4 : bag.lookup "Class" with
  | none => simp [requireProp_bind_none h4, firstMissing, Adapter.requiredProps, List.find?, h1, h2, h3, h4]
  | some w4 =>
  simp only [requireProp_bind_some h4]
  cases h5 : bag.lookup "Powered" with
  | none => simp [requireProp_bind_none h5, firstMissing, Adapter.requiredProps, List.find?, h1, h2, h3, h4, h5]
  | some w5 =>
  simp only [requireProp_bind_some h5]
  cases h6 : bag.lookup "Discoverable" with
  | none => simp [requireProp_bind_none h6, firstMissing, Adapter.requiredProps, List.find?, h1, h2, h3, h4, h5, h6]
  | some w6 =>
  simp only [requireProp_bind_some h6]
  cases h7 : bag.lookup "Pairable" with
  | none => simp [requireProp_bind_none h7, firstMissing, Adapter.requiredProps, List.find?, h1, h2, h3, h4, h5, h6, h7]
  | some w7 =>
  simp only [requireProp_bind_some h7]
  cases h8 : bag.lookup "PairableTimeout" with
  | none => simp [requireProp_bind_none h8, firstMissing, Adapter.requiredProps, List.find?, h1, h2, h3, h4, h5, h6, h7, h8]
  | some w8 =>
  simp only [requireProp_bind_some h8]
  cases h9 : bag.lookup "DiscoverableTimeout" with
  | none => simp [requireProp_bind_none h9, firstMissing, Adapter.requiredProps, List.find?, h1, h2, h3, h4, h5, h6, h7, h8, h9]
  | some w9 =>
  simp only [requireProp_bind_some h9]
  cases h10 : bag.lookup "Discovering" with
  | none => simp [requireProp_bind_none h10, firstMissing, Adapter.requiredProps, List.find?, h1, h2, h3, h4, h5, h6, h7, h8, h9, h10]
  | some w10 =>
  simp only [requireProp_bind_some h10]
  cases h11 : bag.lookup "UUIDs" with
  | none => simp [requireProp_bind_none h11, firstMissing, Adapter.requiredProps, List.find?, h1, h2, h3, h4, h5, h6, h7, h8, h9, h10, h11]
  | some w11 =>
  simp only [requireProp_bind_some h11]
  simp [firstMissing, Adapter.requiredProps, List.find?, h1, h2, h3, h4, h5, h6, h7, h8, h9, h10, h11,
    bagValD, Pure.pure, Except.pure]

/-- Complete case analysis of `Device.fromDBusObject`: it fails on the
first missing required property and otherwise yields the decoded record,
with `_adapter` unset and the decoded `Adapter` path handed to the spawned
lookup. -/
theorem device_fromDBus_eq (path : String) (bag : Bag) :
    Device.fromDBusObject (path, bag) =
      match firstMissing bag Device.requiredProps with
      | some p => Except.error ("missing required property: " ++ p)
      | none => Except.ok
          { state :=
              { path := path,
                name := (bag.lookup "Name").map (fun w => w.value),
                icon := (bag.lookup "Icon").map (fun w => w.value),
                cls := (bag.lookup "Class").map (fun w => w.value),
                appearance := (bag.lookup "Appearance").map (fun w => w.value),
                uuids := (bag.lookup "UUIDs").map (fun w => w.value),
                paired := bagValD bag "Paired", connected := bagValD bag "Connected",
                trusted := bagValD bag "Trusted", blocked := bagValD bag "Blocked",
                aliasName := bagValD bag "Alias", adapter := none,
                legacyPairing := bagValD bag "LegacyPairing",
                modalias := (bag.lookup "Modalias").map (fun w => w.value),
                rssi := (bag.lookup "RSSI").map (fun w => w.value),
                txPower := (bag.lookup "TxPower").map (fun w => w.value),
                manufacturerData := (bag.lookup "ManufacturerData").map (fun w => w.value),
                serviceData := (bag.lookup "ServiceData").map (fun w => w.value),
                gattServices := (bag.lookup "GattServices").map (fun w => w.value) },
            pendingAdapterLookup := bagValD bag "Adapter" } := by
  simp only [Device.fromDBusObject]
  cases h1 : bag.lookup "Paired" with
  | none => simp [requireProp_bind_none h1, firstMissing, Device.requiredProps, List.find?, h1]
  | some w1 =>
  simp only [requireProp_bind_some h1]
  cases h2 : bag.lookup "Connected" with
  | none => simp [requireProp_bind_none h2, firstMissing, Device.requiredProps, List.find?, h1, h2]
  | some w2 =>
  simp only [requireProp_bind_some h2]
  cases h3 : bag.lookup "Trusted" with
  | none => simp [requireProp_bind_none h3, firstMissing, Device.requiredProps, List.find?, h1, h2, h3]
  | some w3 =>
  simp only [requireProp_bind_some h3]
  cases h4 : bag.lookup "Blocked" with
  | none => simp [requireProp_bind_none h4, firstMissing, Device.requiredProps, List.find?, h1, h2, h3, h4]
  | some w4 =>
  simp only [requireProp_bind_some h4]
  cases h5 : bag.lookup "Alias" with
  | none => simp [requireProp_bind_none h5, firstMissing, Device.requiredProps, List.find?, h1, h2, h3, h4, h5]
  | some w5 =>
  simp only [requireProp_bind_some h5]
  cases h6 : bag.lookup "Adapter" with
  | none => simp [requireProp_bind_none h6, firstMissing, Device.requiredProps, List.find?, h1, h2, h3, h4, h5, h6]
  | some w6 =>
  simp only [requireProp_bind_some h6]
  cases h7 : bag.lookup "LegacyPairing" with
  | none => simp [requireProp_bind_none h7, firstMissing, Device.requiredProps, List.find?, h1, h2, h3, h4, h5, h6, h7]
  | some w7 =>
  simp only [requireProp_bind_some h7]
  simp [firstMissing, Device.requiredProps, List.find?, h1, h2, h3, h4, h5, h6, h7,
    bagValD, Pure.pure, Except.pure]

theorem firstMissing_eq_none_iff {bag : Bag} {props : List String} :
    firstMissing bag props = none ↔ ∀ p ∈ props, (bag.lookup p).isSome = true := by
  rw [firstMissing, List.find?_eq_none]
  constructor
  · intro h p hp
    have := h p hp
    cases hl : bag.lookup p with
    | none => rw [hl] at this; simp at this
    | some w => simp
  · intro h p hp
    have := h p hp
    cases hl : bag.lookup p with
    | none => rw [hl] at this; simp at this
    | some w => simp [hl]

theorem firstMissing_some {bag : Bag} {props : List String} {p : String}
    (h : firstMissing bag props = some p) : p ∈ props ∧ bag.lookup p = none := by
  refine ⟨List.mem_of_find?_eq_some h, ?_⟩
  have := List.find?_some h
  simpa [Option.isNone_iff_eq_none] using this

theorem firstMissing_isSome {bag : Bag} {props : List String}
    (h : ∃ p ∈ props, bag.lookup p = none) :
    ∃ q, firstMissing bag props = some q := by
  rw [← Option.isSome_iff_exists, firstMissing, List.find?_isSome]
  obtain ⟨p, hp, hnone⟩ := h
  exact ⟨p, hp, by simp [hnone]⟩

/-- C3: Entity construction from a snapshot succeeds iff every required
property is present; on success every field equals the decoded snapshot
value (optional fields defaulting to an absent value when omitted), and on
a missing required property construction fails with the
"missing required property" error and produces no entity.  Stated for
`Adapter.fromDBusObject` and `Device.fromDBusObject`. -/
theorem construction_iff_required_present (path : String) (bag : Bag) :
    ((Adapter.fromDBusObject (path, bag)).isOk = true
        ↔ ∀ p ∈ Adapter.requiredProps, (bag.lookup p).isSome = true)
    ∧ (∀ s, Adapter.fromDBusObject (path, bag) = Except.ok s →
        s.path = path
        ∧ (bag.lookup "Address").map (fun w => w.value) = some s.address
        ∧ (bag.lookup "Name").map (fun w => w.value) = some s.name
        ∧ (bag.lookup "Alias").map (fun w => w.value) = some s.aliasName
        ∧ (bag.lookup "Class").map (fun w => w.value) = some s.cls
        ∧ (bag.lookup "Powered").map (fun w => w.value) = some s.powered
        ∧ (bag.lookup "Discoverable").map (fun w => w.value) = some s.discoverable
        ∧ (bag.lookup "Pairable").map (fun w => w.value) = some s.pairable
        ∧ (bag.lookup "PairableTimeout").map (fun w => w.value) = some s.pairableTimeout
        ∧ (bag.lookup "DiscoverableTimeout").map (fun w => w.value) = some s.discoverableTimeout
        ∧ (bag.lookup "Discovering").map (fun w => w.value) = some s.discovering
        ∧ (bag.lookup "UUIDs").map (fun w => w.value) = some s.uuids
        ∧ s.modalias = (bag.lookup "Modalias").map (fun w => w.value))
    ∧ ((∃ p ∈ Adapter.requiredProps, bag.lookup p = none) →
        ∃ p ∈ Adapter.requiredProps, bag.lookup p = none
          ∧ Adapter.fromDBusObject (path, bag)
              = Except.error ("missing required property: " ++ p))
    ∧ ((Device.fromDBusObject (path, bag)).isOk = true
        ↔ ∀ p ∈ Device.requiredProps, (bag.lookup p).isSome = true)
    ∧ (∀ d, Device.fromDBusObject (path, bag) = Except.ok d →
        d.state.path = path
        ∧ d.state.name = (bag.lookup "Name").map (fun w => w.value)
        ∧ d.state.icon = (bag.lookup "Icon").map (fun w => w.value)
        ∧ d.state.cls = (bag.lookup "Class").map (fun w => w.value)
        ∧ d.state.appearance = (bag.lookup "Appearance").map (fun w => w.value)
        ∧ d.state.uuids = (bag.lookup "UUIDs").map (fun w => w.value)
        ∧ (bag.lookup "Paired").map (fun w => w.value) = some d.state.paired
        ∧ (bag.lookup "Connected").map (fun w => w.value) = some d.state.connected
        ∧ (bag.lookup "Trusted").map (fun w => w.value) = some d.state.trusted
        ∧ (bag.lookup "Blocked").map (fun w => w.value) = some d.state.blocked
        ∧ (bag.lookup "Alias").map (fun w => w.value) = some d.state.aliasName
        ∧ (bag.lookup "LegacyPairing").map (fun w => w.value) = some d.state.legacyPairing
        ∧ (bag.lookup "Adapter").map (fun w => w.value) = some d.pendingAdapterLookup
        ∧ d.state.modalias = (bag.lookup "Modalias").map (fun w => w.value)
        ∧ d.state.rssi = (bag.lookup "RSSI").map (fun w => w.value)
        ∧ d.state.txPower = (bag.lookup "TxPower").map (fun w => w.value)
        ∧ d.state.manufacturerData = (bag.lookup "ManufacturerData").map (fun w => w.value)
        ∧ d.state.serviceData = (bag.lookup "ServiceData").map (fun w => w.value)
        ∧ d.state.gattServices = (bag.lookup "GattServices").map (fun w => w.value))
    ∧ ((∃ p ∈ Device.requiredProps, bag.lookup p = none) →
        ∃ p ∈ Device.requiredProps, bag.lookup p = none
          ∧ Device.fromDBusObject (path, bag)
              = Except.error ("missing required property: " ++ p)) := by
  refine ⟨?_, ?_, ?_, ?_, ?_, ?_⟩
  · rw [adapter_fromDBus_eq]
    cases hm : firstMissing bag Adapter.requiredProps with
    | some p =>
      obtain ⟨hmem, hnone⟩ := firstMissing_some hm
      simp only [Except.isOk]
      constructor
      · intro h; cases h
      · intro hall
        have := hall p hmem
        rw [hnone] at this
        cases this
    | none =>
      exact ⟨fun _ => firstMissing_eq_none_iff.mp hm, fun _ => rfl⟩
  · rw [adapter_fromDBus_eq]
    cases hm : firstMissing bag Adapter.requiredProps with
    | some p => intro s h; cases h
    | none =>
      intro s h
      injection h with h
      subst h
      have hall := firstMissing_eq_none_iff.mp hm
      have hv : ∀ p ∈ Adapter.requiredProps,
          (bag.lookup p).map (fun w => w.value) = some (bagValD bag p) := by
        intro p hp
        have := hall p hp
        cases hl : bag.lookup p with
        | none => rw [hl] at this; cases this
        | some w => simp [bagValD, hl]
      refine ⟨rfl, ?_, ?_, ?_, ?_, ?_, ?_, ?_, ?_, ?_, ?_, ?_, rfl⟩ <;>
        exact hv _ (by simp [Adapter.requiredProps])
  · intro hex
    obtain ⟨q, hq⟩ := firstMissing_isSome hex
    obtain ⟨hmem, hnone⟩ := firstMissing_some hq
    exact ⟨q, hmem, hnone, by rw [adapter_fromDBus_eq, hq]⟩
  · rw [device_fromDBus_eq]
    cases hm : firstMissing bag Device.requiredProps with
    | some p =>
      obtain ⟨hmem, hnone⟩ := firstMissing_some hm
      simp only [Except.isOk]
      constructor
      · intro h; cases h
      · intro hall
        have := hall p hmem
        rw [hnone] at this
        cases this
    | none =>
      exact ⟨fun _ => firstMissing_eq_none_iff.mp hm, fun _ => rfl⟩
  · rw [device_fromDBus_eq]
    cases hm : firstMissing bag Device.requiredProps with
    | some p => intro d h; cases h
    | none =>
      intro d h
      injection h with h
      subst h
      have hall := firstMissing_eq_none_iff.mp hm
      have hv : ∀ p ∈ Device.requiredProps,
          (bag.lookup p).map (fun w => w.value) = some (bagValD bag p) := by
        intro p hp
        have := hall p hp
        cases hl : bag.lookup p with
        | none => rw [hl] at this; cases this
        | some w => simp [bagValD, hl]
      refine ⟨rfl, rfl, rfl, rfl, rfl, rfl, ?_, ?_, ?_, ?_, ?_, ?_, ?_,
        rfl, rfl, rfl, rfl, rfl, rfl⟩ <;>
        exact hv _ (by simp [Device.requiredProps])
  · intro hex
    obtain ⟨q, hq⟩ := firstMissing_isSome hex
    obtain ⟨hmem, hnone⟩ := firstMissing_some hq
    exact ⟨q, hmem, hnone, by rw [device_fromDBus_eq, hq]⟩

/-- A concrete adapter snapshot containing every required property and no
`Modalias`. -/
def sampleAdapterBag : Bag :=
  [("Address", ⟨.str "00:11:22:33:44:55"⟩), ("Name", ⟨.str "hci0"⟩),
   ("Alias", ⟨.str "hci0"⟩), ("Class", ⟨.int 0⟩), ("Powered", ⟨.bool false⟩),
   ("Discoverable", ⟨.bool false⟩), ("Pairable", ⟨.bool false⟩),
   ("PairableTimeout", ⟨.int 0⟩), ("DiscoverableTimeout", ⟨.int 180⟩),
   ("Discovering", ⟨.bool false⟩), ("UUIDs", ⟨.strList []⟩)]

/-- A concrete device snapshot containing every required property and no
optional ones. -/
def sampleDeviceBag : Bag :=
  [("Paired", ⟨.bool false⟩), ("Connected", ⟨.bool false⟩), ("Trusted", ⟨.bool false⟩),
   ("Blocked", ⟨.bool false⟩), ("Alias", ⟨.str "dev"⟩),
   ("Adapter", ⟨.str "/org/bluez/hci0"⟩), ("LegacyPairing", ⟨.bool false⟩)]

/-- C3 witness: the full adapter and device snapshots construct
successfully (with `Modalias` absent), and the adapter snapshot with its
`Address` entry dropped fails to construct. -/
theorem construction_iff_required_present_witness :
    (Adapter.fromDBusObject ("/org/bluez/hci0", sampleAdapterBag)).isOk = true
    ∧ (Device.fromDBusObject ("/org/bluez/hci0/dev_AA_BB_CC_DD_EE_FF", sampleDeviceBag)).isOk = true
    ∧ (Adapter.fromDBusObject ("/org/bluez/hci0", sampleAdapterBag.drop 1)).isOk = false := by
  refine ⟨(construction_iff_required_present "/org/bluez/hci0" sampleAdapterBag).1.mpr (by decide),
    (construction_iff_required_present "/org/bluez/hci0/dev_AA_BB_CC_DD_EE_FF"
      sampleDeviceBag).2.2.2.1.mpr (by decide), ?_⟩
  cases hv : (Adapter.fromDBusObject ("/org/bluez/hci0", sampleAdapterBag.drop 1)).isOk with
  | false => rfl
  | true =>
    exact absurd ((construction_iff_required_present "/org/bluez/hci0"
      (sampleAdapterBag.drop 1)).1.mp hv) (by decide)

/-- C6: a constructed Device starts with its adapter accessor unset
(`undefined`): construction itself only records the decoded adapter path
and hands it to the spawned `Adapter.fromPath` lookup, whose `.then`
continuation (`Device.resolveAdapterStep`, run when the lookup completes,
after construction has already returned) is what first sets the accessor;
and a matching-interface notification updating the `Adapter` property
issues a fresh lookup whose result replaces the accessor. -/
theorem device_adapter_async_resolution (path : String) (bag : Bag) (d : DeviceCtor)
    (h : Device.fromDBusObject (path, bag) = Except.ok d) :
    d.state.adapter = none
    ∧ (bag.lookup "Adapter").map (fun w => w.value) = some d.pendingAdapterLookup
    ∧ Device.resolveAdapterStep d.state d.pendingAdapterLookup
        = { d.state with adapter := some (Adapter.fromPath d.pendingAdapterLookup) }
    ∧ (∀ (s : DeviceState) (w : VariantVal),
        (Device.listenForChanges s deviceInterface [("Adapter", w)]).1.adapter
          = some (Adapter.fromPath w.value)) := by
  rw [device_fromDBus_eq] at h
  cases hm : firstMissing bag Device.requiredProps with
  | some p => rw [hm] at h; cases h
  | none =>
    rw [hm] at h
    injection h with h
    subst h
    refine ⟨rfl, ?_, rfl, ?_⟩
    · have hall := firstMissing_eq_none_iff.mp hm
      have := hall "Adapter" (by simp [Device.requiredProps])
      cases hl : bag.lookup "Adapter" with
      | none => rw [hl] at this; cases this
      | some w => simp [bagValD, hl]
    · intro s w
      rw [device_listen_match]
      simp [stepEmit, Device.propTable, List.lookup, Device.writeField]

/-- C6 witness: the device constructed from the sample snapshot has its
adapter accessor unset; completing the pending lookup sets it; an
`Adapter`-property notification re-resolves it from the new path. -/
theorem device_adapter_async_resolution_witness :
    sampleDevice.adapter = none
    ∧ Device.resolveAdapterStep sampleDevice (DBusValue.str "/org/bluez/hci0")
        = { sampleDevice with adapter := some (Adapter.fromPath (.str "/org/bluez/hci0")) }
    ∧ (Device.listenForChanges sampleDevice deviceInterface
        [("Adapter", ⟨.str "/org/bluez/hci1"⟩)]).1.adapter
        = some (Adapter.fromPath (.str "/org/bluez/hci1")) := by
  have h : Device.fromDBusObject ("/org/bluez/hci0/dev_AA_BB_CC_DD_EE_FF", sampleDeviceBag)
      = Except.ok ⟨sampleDevice, .str "/org/bluez/hci0"⟩ := rfl
  have hw := device_adapter_async_resolution _ _ _ h
  exact ⟨hw.1, hw.2.2.1, hw.2.2.2 sampleDevice ⟨.str "/org/bluez/hci1"⟩⟩

/-- C7: enumerating the devices of an adapter runs the filter/map pipeline
of `Device.allOfAdapter` over the single managed-objects query result: an
entry survives iff its object path starts with the adapter's path and its
interface set includes `org.bluez.Device1`, and each survivor is mapped
through the Device constructor. -/
theorem devices_of_adapter_enumeration (aPath : String)
    (objects : List (String × List (String × Bag))) (e : String × Bag) :
    (e ∈ Device.allOfAdapterEntries aPath objects ↔
      ∃ ifaces, (e.1, ifaces) ∈ objects ∧ pathStartsWith e.1 aPath = true
        ∧ ifaces.lookup deviceInterface = some e.2)
    ∧ Device.allOfAdapter aPath objects
        = (Device.allOfAdapterEntries aPath objects).mapM Device.fromDBusObject := by
  refine ⟨⟨?_, ?_⟩, rfl⟩
  · intro he
    rw [Device.allOfAdapterEntries] at he
    obtain ⟨x, hx, hxe⟩ := List.mem_map.mp he
    have hx2 := List.mem_filter.mp hx
    have hx1 := List.mem_filter.mp hx2.1
    obtain ⟨bag0, hb⟩ := Option.isSome_iff_exists.mp hx2.2
    have he1 : e.1 = x.1 := by rw [← hxe]
    have he2 : e.2 = bag0 := by rw [← hxe]; simp [hb]
    refine ⟨x.2, ?_, ?_, ?_⟩
    · rw [he1]
      simpa using hx1.1
    · rw [he1]
      exact hx1.2
    · rw [hb, he2]
  · rintro ⟨ifaces, hmem, hpre, hlk⟩
    rw [Device.allOfAdapterEntries]
    apply List.mem_map.mpr
    refine ⟨(e.1, ifaces), ?_, ?_⟩
    · exact List.mem_filter.mpr ⟨List.mem_filter.mpr ⟨hmem, hpre⟩, by simp [hlk]⟩
    · simp [hlk]

/-- A concrete managed-objects result: a device under `/org/bluez/hci0`, a
device under `/org/bluez/hci1` (also exposing the device interface), and
the adapter object itself. -/
def sampleObjects : List (String × List (String × Bag)) :=
  [("/org/bluez/hci0/dev_AA_BB_CC_DD_EE_FF", [("org.bluez.Device1", sampleDeviceBag)]),
   ("/org/bluez/hci1/dev_X", [("org.bluez.Device1", sampleDeviceBag)]),
   ("/org/bluez/hci0", [("org.bluez.Adapter1", sampleAdapterBag)])]

/-- C7 witness: for the adapter at `/org/bluez/hci0`, the device under
`/org/bluez/hci0` is enumerated, while the device under `/org/bluez/hci1`
is excluded even though it exposes the device interface. -/
theorem devices_of_adapter_enumeration_witness :
    ("/org/bluez/hci0/dev_AA_BB_CC_DD_EE_FF", sampleDeviceBag)
        ∈ Device.allOfAdapterEntries "/org/bluez/hci0" sampleObjects
    ∧ ("/org/bluez/hci1/dev_X", sampleDeviceBag)
        ∉ Device.allOfAdapterEntries "/org/bluez/hci0" sampleObjects := by
  constructor
  · exact (devices_of_adapter_enumeration "/org/bluez/hci0" sampleObjects
      ("/org/bluez/hci0/dev_AA_BB_CC_DD_EE_FF", sampleDeviceBag)).1.mpr
      ⟨[("org.bluez.Device1", sampleDeviceBag)], by decide, by decide, by decide⟩
  · intro h
    obtain ⟨ifaces, _, hpre, _⟩ := (devices_of_adapter_enumeration "/org/bluez/hci0"
      sampleObjects ("/org/bluez/hci1/dev_X", sampleDeviceBag)).1.mp h
    exact (by decide : ¬(pathStartsWith "/org/bluez/hci1/dev_X" "/org/bluez/hci0" = true)) hpre

/-- C9: `Battery.ofDevice` yields a Battery only when the managed-objects
entry at the device's path advertises `org.bluez.Battery1`; when that entry
lacks the battery interface the call fails with the "unsupported interface"
error and no Battery is returned. -/
theorem battery_requires_interface (devicePath : String)
    (objects : List (String × List (String × Bag)))
    (getProp : String → Except String DBusValue)
    (ifaces : List (String × Bag))
    (h : objects.lookup devicePath = some ifaces) :
    ((ifaces.lookup batteryInterface).isSome = false →
      Battery.ofDevice devicePath objects getProp = Except.error Battery.unsupportedMsg)
    ∧ (∀ b, Battery.ofDevice devicePath objects getProp = Except.ok b →
        (ifaces.lookup batteryInterface).isSome = true) := by
  constructor
  · intro hno
    simp [Battery.ofDevice, h, hno]
  · intro b hb
    cases hs : (ifaces.lookup batteryInterface).isSome with
    | true => rfl
    | false =>
      rw [Battery.ofDevice] at hb
      simp [h, hs] at hb

/-- C9 witness: the sample device's managed object exposes only
`org.bluez.Device1`, so `Battery.ofDevice` fails with the unsupported
interface error (whatever the property oracle returns). -/
theorem battery_requires_interface_witness :
    Battery.ofDevice "/org/bluez/hci0/dev_AA_BB_CC_DD_EE_FF" sampleObjects
        (fun _ => Except.ok (.int 80)) = Except.error Battery.unsupportedMsg :=
  (battery_requires_interface "/org/bluez/hci0/dev_AA_BB_CC_DD_EE_FF" sampleObjects
    (fun _ => Except.ok (.int 80)) [("org.bluez.Device1", sampleDeviceBag)] (by decide)).1
    (by decide)
